import Mathlib

/-
Verification of the instrumentation decorator engine (src/instrumentator.py).

The Python module is embedded shallowly:
  * Python values flowing through request/response views are the inductive
    type `Value` (None, numbers, strings, lists, dicts, attribute-bearing
    objects).  Python numbers (int and float conflated) are modelled as
    rationals: the only numeric operations the module performs on view
    values are equality and ordering comparisons, on which rationals and
    IEEE doubles agree for the decimal literals involved.
  * Python exceptions are explicit: fallible primitives return
    `Except PyErr _`.  `search_json`'s bare except is the explicit catch in
    `search_json` below; Python's recursion limit is the `fuel` argument
    (exhaustion raises, and is caught like any other error).
  * Each decorator's wrapper closure is a function from the captured
    configuration, the per-call inputs and the current metric state to
    `Except PyErr (result × new metric state)`; prometheus counters /
    gauges / histograms are the `Nat` / `Option ℚ` / `List ℚ` entries of an
    association list keyed by the same strings the source builds.
-/

namespace Instrumentator

/-- Python exception kinds raised by the operations the module performs. -/
inductive PyErr where
  | typeError
  | keyError
  | indexError
  | attributeError
  | valueError
  | recursionError
deriving DecidableEq

/-- Python values reaching the instrumentation code: None, numbers
(int/float, as rationals), strings, lists, dicts, and attribute-bearing
objects (e.g. a feedback object with `correctness` / `corrected_value`
attributes).  Dict equality is structural (entry order matters), a
harmless narrowing of Python's order-insensitive dict equality: no
verified flow compares two dicts for equality. -/
inductive Value where
  | none : Value
  | num : ℚ → Value
  | str : String → Value
  | list : List Value → Value
  | dict : List (Value × Value) → Value
  | obj : List (String × Value) → Value

mutual

/-- Python `==` on the modelled value kinds: structural equality. -/
def vbeq : Value → Value → Bool
  | Value.none, Value.none => true
  | Value.num a, Value.num b => a == b
  | Value.str a, Value.str b => a == b
  | Value.list xs, Value.list ys => vbeqList xs ys
  | Value.dict xs, Value.dict ys => vbeqPairs xs ys
  | Value.obj xs, Value.obj ys => vbeqAttrs xs ys
  | _, _ => false
termination_by structural a _ => a

/-- Elementwise `vbeq` on lists. -/
def vbeqList : List Value → List Value → Bool
  | [], [] => true
  | x :: xs, y :: ys => vbeq x y && vbeqList xs ys
  | _, _ => false
termination_by structural a _ => a

/-- Pairwise `vbeq` on dict entries. -/
def vbeqPairs : List (Value × Value) → List (Value × Value) → Bool
  | [], [] => true
  | (k1, v1) :: xs, (k2, v2) :: ys => vbeq k1 k2 && vbeq v1 v2 && vbeqPairs xs ys
  | _, _ => false
termination_by structural a _ => a

/-- Pairwise `vbeq` on attribute entries. -/
def vbeqAttrs : List (String × Value) → List (String × Value) → Bool
  | [], [] => true
  | (k1, v1) :: xs, (k2, v2) :: ys => k1 == k2 && vbeq v1 v2 && vbeqAttrs xs ys
  | _, _ => false
termination_by structural a _ => a

end

instance : BEq Value := ⟨vbeq⟩

/-- Unfold `==` on `Value` to `vbeq`. -/
theorem value_beq_def (a b : Value) : (a == b) = vbeq a b := rfl

mutual

/-- `vbeq` is reflexive. -/
theorem vbeq_refl : (a : Value) → vbeq a a = true
  | Value.none => rfl
  | Value.num a => by simp [vbeq]
  | Value.str a => by simp [vbeq]
  | Value.list xs => by simp [vbeq, vbeqList_refl xs]
  | Value.dict xs => by simp [vbeq, vbeqPairs_refl xs]
  | Value.obj xs => by simp [vbeq, vbeqAttrs_refl xs]

/-- `vbeqList` is reflexive. -/
theorem vbeqList_refl : (xs : List Value) → vbeqList xs xs = true
  | [] => rfl
  | x :: xs => by simp [vbeqList, vbeq_refl x, vbeqList_refl xs]

/-- `vbeqPairs` is reflexive. -/
theorem vbeqPairs_refl : (xs : List (Value × Value)) → vbeqPairs xs xs = true
  | [] => rfl
  | (k, v) :: xs => by simp [vbeqPairs, vbeq_refl k, vbeq_refl v, vbeqPairs_refl xs]

/-- `vbeqAttrs` is reflexive. -/
theorem vbeqAttrs_refl : (xs : List (String × Value)) → vbeqAttrs xs xs = true
  | [] => rfl
  | (k, v) :: xs => by simp [vbeqAttrs, vbeq_refl v, vbeqAttrs_refl xs]

end

/-- Python truthiness (`if threshold_key:`). -/
def pyTruthy : Value → Bool
  | Value.none => false
  | Value.num q => q != 0
  | Value.str s => s != ""
  | Value.list xs => !xs.isEmpty
  | Value.dict kvs => !kvs.isEmpty
  | Value.obj _ => true

/-- Python `str(...)` as used to build metric names (`str(val)`).  Integral
numbers render as Python renders ints; the remaining renderings only name
metrics and never feed a verified comparison. -/
def pyStr : Value → String
  | Value.none => "None"
  | Value.num q => if q.den == 1 then toString q.num else toString q
  | Value.str s => s
  | Value.list _ => "<list>"
  | Value.dict _ => "<dict>"
  | Value.obj _ => "<object>"

/-- Python `a > b` for the value kinds the module compares (numbers with
numbers, strings with strings); any other combination — in particular a
number against `None`, as happens when a threshold lookup missed — raises
`TypeError`, as in Python 3. -/
def pyGT : Value → Value → Except PyErr Bool
  | Value.num a, Value.num b => Except.ok (decide (b < a))
  | Value.str a, Value.str b => Except.ok (decide (b < a))
  | _, _ => Except.error PyErr.typeError

/-- Python `a < b`, same coverage as `pyGT`. -/
def pyLT : Value → Value → Except PyErr Bool
  | Value.num a, Value.num b => Except.ok (decide (a < b))
  | Value.str a, Value.str b => Except.ok (decide (a < b))
  | _, _ => Except.error PyErr.typeError

/-- Python `float(v)` as performed by `Gauge.set` / `Histogram.observe`.
Coercion of numeric strings is not modelled (no verified flow sets a
metric from a string): strings raise `ValueError` as non-numeric ones do
in Python, other non-numbers raise `TypeError`. -/
def pyFloat : Value → Except PyErr ℚ
  | Value.num q => Except.ok q
  | Value.str _ => Except.error PyErr.valueError
  | _ => Except.error PyErr.typeError

/-- Python attribute access `v.name` (`feedback.correctness`).  Only the
`obj` kind carries attributes; plain data values (None, numbers, strings,
lists, dicts) raise `AttributeError` in Python just as here. -/
def getAttr : Value → String → Except PyErr Value
  | Value.obj attrs, name =>
    match attrs.find? (fun p => p.1 == name) with
    | some p => Except.ok p.2
    | Option.none => Except.error PyErr.attributeError
  | _, _ => Except.error PyErr.attributeError

/-- Python iteration `for ikey in json_obj`: a dict yields its keys, a
list its elements, a string its characters (as one-character strings);
None, numbers and plain objects raise `TypeError`. -/
def iter : Value → Except PyErr (List Value)
  | Value.dict kvs => Except.ok (kvs.map Prod.fst)
  | Value.list xs => Except.ok xs
  | Value.str s => Except.ok (s.toList.map (fun c => Value.str (String.singleton c)))
  | _ => Except.error PyErr.typeError

/-- Python subscription `json_obj[ikey]`: dict lookup by key equality
(`KeyError` on a miss), list/string indexing by integral number with
Python's negative-index convention (`TypeError` for a non-integral or
non-numeric index, `IndexError` out of range); other receivers raise
`TypeError`. -/
def getItem : Value → Value → Except PyErr Value
  | Value.dict kvs, k =>
    match kvs.find? (fun p => p.1 == k) with
    | some p => Except.ok p.2
    | Option.none => Except.error PyErr.keyError
  | Value.list xs, Value.num q =>
    if q.den == 1 then
      let i : Int := if q.num < 0 then q.num + xs.length else q.num
      if 0 ≤ i then
        match xs.get? i.toNat with
        | some v => Except.ok v
        | Option.none => Except.error PyErr.indexError
      else Except.error PyErr.indexError
    else Except.error PyErr.typeError
  | Value.str s, Value.num q =>
    if q.den == 1 then
      let i : Int := if q.num < 0 then q.num + s.length else q.num
      if 0 ≤ i then
        match s.toList.get? i.toNat with
        | some c => Except.ok (Value.str (String.singleton c))
        | Option.none => Except.error PyErr.indexError
      else Except.error PyErr.indexError
    else Except.error PyErr.typeError
  | _, _ => Except.error PyErr.typeError

/-- Dict lookup returning an `Option`, used to state properties of the
views the adapters build. -/
def dictFind (kvs : List (Value × Value)) (k : Value) : Option Value :=
  (kvs.find? (fun p => p.1 == k)).map Prod.snd

/-
`search_json` (src/instrumentator.py lines 67-83):

    def search_json(key, json_obj):
        try:
            for ikey in json_obj:
                if ikey == key:
                    return json_obj[key]
                res = search_json(key, json_obj[ikey])
                if not res is None:
                    return res
            return None
        except:
            return None

The absent marker is Python's None, i.e. `Value.none`.  Each recursive
call runs under its own try/except, so an error raised at one level is
converted to None there and never propagates.  `fuel` models Python's
recursion limit: a call with no fuel left raises RecursionError, which
the caller's except turns into None like any other error.
-/

/-- The `for ikey in json_obj:` loop body of `search_json`.  `recurse`
is the (self-catching) recursive call at the next depth. -/
def searchLoop (recurse : Value → Value → Value) (key obj : Value) :
    List Value → Except PyErr Value
  | [] => Except.ok Value.none
  | ikey :: rest =>
    if ikey == key then getItem obj key
    else
      match getItem obj ikey with
      | Except.error e => Except.error e
      | Except.ok child =>
        match recurse key child with
        | Value.none => searchLoop recurse key obj rest
        | res => Except.ok res

/-- The try-block of `search_json`: iterate the container and run
`searchLoop`; any error escaping here is the exception the function's
own bare `except:` catches. -/
def searchExc : Nat → Value → Value → Except PyErr Value
  | 0, _, _ => Except.error PyErr.recursionError
  | fuel + 1, key, obj =>
    match iter obj with
    | Except.error e => Except.error e
    | Except.ok iks =>
      searchLoop
        (fun k c =>
          match searchExc fuel k c with
          | Except.ok res => res
          | Except.error _ => Value.none)
        key obj iks

/-- `search_json`: the try-block with its bare `except: return None`. -/
def search_json (fuel : Nat) (key obj : Value) : Value :=
  match searchExc fuel key obj with
  | Except.ok res => res
  | Except.error _ => Value.none

/-
View adapters (src/instrumentator.py lines 17-65).  A Flask request is
modelled by its method verb and its two parameter multidicts
(`request.args` from the query string, `request.form` from the body);
`request.values` is the combined multidict, looking keys up in `args`
first, as Werkzeug does.
-/

/-- The transport-level request handle the Flask adapter reads:
`method`, query parameters (`args`) and body parameters (`form`), each a
multidict mapping a name to its list of values. -/
structure FlaskRequest where
  method : String
  args : List (String × List Value)
  form : List (String × List Value)

/-- `MultiDict.keys()`: each stored key once, in insertion order. -/
def multi_keys (m : List (String × List Value)) : List String :=
  m.map Prod.fst

/-- `MultiDict.get(key)`: the first value stored for `key`, or None. -/
def multi_get (m : List (String × List Value)) (k : String) : Value :=
  match m.find? (fun p => p.1 == k) with
  | some p =>
    match p.2 with
    | v :: _ => v
    | [] => Value.none
  | Option.none => Value.none

/-- `request.values.get(key)`: `CombinedMultiDict([args, form]).get` —
the query multidict is consulted before the form multidict. -/
def combined_get (args form : List (String × List Value)) (k : String) : Value :=
  if (args.find? (fun p => p.1 == k)).isSome then multi_get args k
  else multi_get form k

/-- Python dict assignment `res[key] = v`: update the entry in place if
the key exists, else append a new entry. -/
def dictAssign (d : List (Value × Value)) (k v : Value) : List (Value × Value) :=
  if (d.find? (fun p => p.1 == k)).isSome then
    d.map (fun p => if p.1 == k then (p.1, v) else p)
  else d ++ [(k, v)]

/-- The `res` dict built by the loop `for key in params.keys():
res[key] = params.get(key)`. -/
def buildRes (keys : List String) (get : String → Value) : List (Value × Value) :=
  keys.foldl (fun d k => dictAssign d (Value.str k) (get k)) []

/-- A kwargs dict as a Python dict value (string keys). -/
def kwargsDict (kwargs : List (String × Value)) : Value :=
  Value.dict (kwargs.map (fun p => (Value.str p.1, p.2)))

/-- `transform_request_to_json_flask` (lines 17-35): non-empty kwargs
are the view verbatim; otherwise the view is built from `request.values`
for POST and from `request.args` for every other method, mapping each
parameter name to its first value. -/
def transform_request_to_json_flask (freq : FlaskRequest) (kwargs : List (String × Value)) : Value :=
  if kwargs.length ≠ 0 then kwargsDict kwargs
  else if freq.method == "POST" then
    Value.dict (buildRes (multi_keys freq.args ++ multi_keys freq.form)
      (combined_get freq.args freq.form))
  else
    Value.dict (buildRes (multi_keys freq.args) (multi_get freq.args))

/-- `transform_request_to_json_fastapi` (lines 37-44): the kwargs are
the view, the request handle is ignored. -/
def transform_request_to_json_fastapi (freq : FlaskRequest) (kwargs : List (String × Value)) : Value :=
  kwargsDict kwargs

/-- `transform_response_to_json_fastapi` (lines 55-65): a dict return
value is the view itself.  A non-dict plain value has no `.body`
attribute, so the else-branch's `resp_obj.body` raises AttributeError;
actual Response objects carrying JSON text are outside the modelled
value universe. -/
def transform_response_to_json_fastapi (resp_obj : Value) : Except PyErr Value :=
  match resp_obj with
  | Value.dict kvs => Except.ok (Value.dict kvs)
  | _ => Except.error PyErr.attributeError

/-
Metric state.  Each decorator factory builds a dict of prometheus metric
objects once; per call, the wrapper mutates them.  A counter set is an
association list name → count, a gauge set name → last value set, a
histogram set name → list of observed values.  `counters[k]` is a dict
subscription, so a missing name raises KeyError (it cannot in the
source, which indexes with the same names it created).
-/

/-- `counters[k].inc()`. -/
def incKey (st : List (String × Nat)) (k : String) : Except PyErr (List (String × Nat)) :=
  if (st.find? (fun p => p.1 == k)).isSome then
    Except.ok (st.map (fun p => if p.1 == k then (p.1, p.2 + 1) else p))
  else Except.error PyErr.keyError

/-- `gauges[k].set(v)`: coerce `v` to float, store it. -/
def setKey (st : List (String × Option ℚ)) (k : String) (v : Value) :
    Except PyErr (List (String × Option ℚ)) :=
  match pyFloat v with
  | Except.error e => Except.error e
  | Except.ok q =>
    if (st.find? (fun p => p.1 == k)).isSome then
      Except.ok (st.map (fun p => if p.1 == k then (p.1, some q) else p))
    else Except.error PyErr.keyError

/-- `hists[k].observe(v)`: coerce `v` to float, append it. -/
def obsKey (st : List (String × List ℚ)) (k : String) (v : Value) :
    Except PyErr (List (String × List ℚ)) :=
  match pyFloat v with
  | Except.error e => Except.error e
  | Except.ok q =>
    if (st.find? (fun p => p.1 == k)).isSome then
      Except.ok (st.map (fun p => if p.1 == k then (p.1, p.2 ++ [q]) else p))
    else Except.error PyErr.keyError

/-
Decorator wrappers.  Each wrapper closure is embedded as a function of
the closed-over configuration, the per-call request data, the handler's
captured return value `resp_obj` (step 1 returned normally), and the
current metric state; it yields the pair (returned value, new state) or
the Python exception it raises.  The source wrappers end with
`return resp_obj`, so every wrapper below is its effectful steps mapped
with `fun st => (resp_obj, st)`.  There is no try/except anywhere in the
wrappers: any error in the steps escapes to the caller.
-/

/-- Pair the original handler result with the final metric state, as the
wrappers' trailing `return resp_obj` does. -/
def withResult {σ : Type} (resp_obj : Value) (steps : Except PyErr σ) :
    Except PyErr (Value × σ) :=
  steps.map (fun st => (resp_obj, st))

/-- Steps of the `count_false_binary_feedback` wrapper (lines 129-145):
search the request view for the feedback, resolve the threshold, then
read `feedback.correctness` / `feedback.corrected_value` and count a
false negative or false positive. -/
def count_false_binary_feedback_steps (feedback_key threshold_key : Value) (fuel : Nat)
    (request_json : Value) (fp fneg : Nat) : Except PyErr (Nat × Nat) := do
  let feedback := search_json fuel feedback_key request_json
  let threshold :=
    if pyTruthy threshold_key then search_json fuel threshold_key request_json
    else Value.num (mkRat 1 2)
  let corr ← getAttr feedback "correctness"
  let isNegFeedback ← pyLT corr (Value.num 0)
  if isNegFeedback then do
    let cv ← getAttr feedback "corrected_value"
    let above ← pyGT cv threshold
    if above then pure (fp, fneg + 1) else pure (fp + 1, fneg)
  else pure (fp, fneg)

/-- The `count_false_binary_feedback` wrapper. -/
def count_false_binary_feedback_wrapper (feedback_key threshold_key : Value) (fuel : Nat)
    (tr_req : FlaskRequest → List (String × Value) → Value)
    (freq : FlaskRequest) (kwargs : List (String × Value))
    (resp_obj : Value) (fp fneg : Nat) : Except PyErr (Value × Nat × Nat) :=
  withResult resp_obj
    (count_false_binary_feedback_steps feedback_key threshold_key fuel
      (tr_req freq kwargs) fp fneg)

/-- The `for val in values:` loop of the `count_feature` wrapper (lines
168-171): `request_json[feature]` is re-read each iteration and compared
with the enumerated value; on the first match the counter named
`feature+'_'+str(val)` is incremented and the loop breaks. -/
def featureLoop (request_json : Value) (feature : String) :
    List Value → List (String × Nat) → Except PyErr (List (String × Nat))
  | [], st => Except.ok st
  | val :: rest, st =>
    match getItem request_json (Value.str feature) with
    | Except.error e => Except.error e
    | Except.ok fv =>
      if fv == val then incKey st (feature ++ "_" ++ pyStr val)
      else featureLoop request_json feature rest st

/-- The `count_feature` wrapper (lines 163-174). -/
def count_feature_wrapper (feature : String) (values : List Value)
    (tr_req : FlaskRequest → List (String × Value) → Value)
    (freq : FlaskRequest) (kwargs : List (String × Value))
    (resp_obj : Value) (counters : List (String × Nat)) :
    Except PyErr (Value × List (String × Nat)) :=
  withResult resp_obj (featureLoop (tr_req freq kwargs) feature values counters)

/-- The `for feature in feature_keys:` loop of the `gauge_feature`
wrapper (lines 193-194): `gauges[feature].set(request_json[feature])`. -/
def gaugeFeatureLoop (request_json : Value) :
    List String → List (String × Option ℚ) → Except PyErr (List (String × Option ℚ))
  | [], st => Except.ok st
  | feature :: rest, st =>
    match getItem request_json (Value.str feature) with
    | Except.error e => Except.error e
    | Except.ok v =>
      match setKey st feature v with
      | Except.error e => Except.error e
      | Except.ok st1 => gaugeFeatureLoop request_json rest st1

/-- The `gauge_feature` wrapper (lines 188-197). -/
def gauge_feature_wrapper (feature_keys : List String)
    (tr_req : FlaskRequest → List (String × Value) → Value)
    (freq : FlaskRequest) (kwargs : List (String × Value))
    (resp_obj : Value) (gauges : List (String × Option ℚ)) :
    Except PyErr (Value × List (String × Option ℚ)) :=
  withResult resp_obj (gaugeFeatureLoop (tr_req freq kwargs) feature_keys gauges)

/-- The `for feature in feature_keys:` loop of the `hist_feature`
wrapper (lines 217-218): `hists[feature].observe(request_json[feature])`. -/
def histFeatureLoop (request_json : Value) :
    List String → List (String × List ℚ) → Except PyErr (List (String × List ℚ))
  | [], st => Except.ok st
  | feature :: rest, st =>
    match getItem request_json (Value.str feature) with
    | Except.error e => Except.error e
    | Except.ok v =>
      match obsKey st feature v with
      | Except.error e => Except.error e
      | Except.ok st1 => histFeatureLoop request_json rest st1

/-- The `hist_feature` wrapper (lines 212-221). -/
def hist_feature_wrapper (feature_keys : List String)
    (tr_req : FlaskRequest → List (String × Value) → Value)
    (freq : FlaskRequest) (kwargs : List (String × Value))
    (resp_obj : Value) (hists : List (String × List ℚ)) :
    Except PyErr (Value × List (String × List ℚ)) :=
  withResult resp_obj (histFeatureLoop (tr_req freq kwargs) feature_keys hists)

/-- Steps of the `count_binary` wrapper (lines 239-252): derive the
response view, search it for `result_key` and (when the factory got a
truthy `threshold_key`) for the threshold, default 0.5 otherwise; a
non-None result value is compared against the threshold and the
positive or negative counter incremented. -/
def count_binary_steps (result_key threshold_key : Value) (fuel : Nat)
    (tr_resp : Value → Except PyErr Value) (resp_obj : Value)
    (pos neg : Nat) : Except PyErr (Nat × Nat) := do
  let resp_json ← tr_resp resp_obj
  let value := search_json fuel result_key resp_json
  let threshold :=
    if pyTruthy threshold_key then search_json fuel threshold_key resp_json
    else Value.num (mkRat 1 2)
  match value with
  | Value.none => pure (pos, neg)
  | v => do
    let above ← pyGT v threshold
    if above then pure (pos + 1, neg) else pure (pos, neg + 1)

/-- The `count_binary` wrapper. -/
def count_binary_wrapper (result_key threshold_key : Value) (fuel : Nat)
    (tr_resp : Value → Except PyErr Value) (resp_obj : Value)
    (pos neg : Nat) : Except PyErr (Value × Nat × Nat) :=
  withResult resp_obj (count_binary_steps result_key threshold_key fuel tr_resp resp_obj pos neg)

/-- The `for cls in class_keys:` loop of the `count_classes` wrapper
(lines 278-282): search the response view for each class name; a
non-None value above the threshold increments that class's counter. -/
def classLoop (fuel : Nat) (resp_json threshold : Value) :
    List String → List (String × Nat) → Except PyErr (List (String × Nat))
  | [], st => Except.ok st
  | cls :: rest, st =>
    match search_json fuel (Value.str cls) resp_json with
    | Value.none => classLoop fuel resp_json threshold rest st
    | v =>
      match pyGT v threshold with
      | Except.error e => Except.error e
      | Except.ok true =>
        match incKey st cls with
        | Except.error e => Except.error e
        | Except.ok st1 => classLoop fuel resp_json threshold rest st1
      | Except.ok false => classLoop fuel resp_json threshold rest st

/-- Steps of the `count_classes` wrapper (lines 271-283). -/
def count_classes_steps (threshold_key : Value) (class_keys : List String) (fuel : Nat)
    (tr_resp : Value → Except PyErr Value) (resp_obj : Value)
    (counters : List (String × Nat)) : Except PyErr (List (String × Nat)) := do
  let resp_json ← tr_resp resp_obj
  let threshold :=
    if pyTruthy threshold_key then search_json fuel threshold_key resp_json
    else Value.num (mkRat 1 2)
  classLoop fuel resp_json threshold class_keys counters

/-- The `count_classes` wrapper. -/
def count_classes_wrapper (threshold_key : Value) (class_keys : List String) (fuel : Nat)
    (tr_resp : Value → Except PyErr Value) (resp_obj : Value)
    (counters : List (String × Nat)) : Except PyErr (Value × List (String × Nat)) :=
  withResult resp_obj
    (count_classes_steps threshold_key class_keys fuel tr_resp resp_obj counters)

/-- The `for key in value_keys:` loop of the `gauge_output` wrapper
(lines 305-308): a non-None search result is written to the gauge. -/
def gaugeOutputLoop (fuel : Nat) (resp_json : Value) :
    List String → List (String × Option ℚ) → Except PyErr (List (String × Option ℚ))
  | [], st => Except.ok st
  | key :: rest, st =>
    match search_json fuel (Value.str key) resp_json with
    | Value.none => gaugeOutputLoop fuel resp_json rest st
    | v =>
      match setKey st key v with
      | Except.error e => Except.error e
      | Except.ok st1 => gaugeOutputLoop fuel resp_json rest st1

/-- The `gauge_output` wrapper (lines 300-311). -/
def gauge_output_wrapper (value_keys : List String) (fuel : Nat)
    (tr_resp : Value → Except PyErr Value) (resp_obj : Value)
    (gauges : List (String × Option ℚ)) : Except PyErr (Value × List (String × Option ℚ)) :=
  withResult resp_obj (do
    let resp_json ← tr_resp resp_obj
    gaugeOutputLoop fuel resp_json value_keys gauges)

/-- The `for key in value_keys:` loop of the `hist_output` wrapper
(lines 332-335) — also the `for key in buckets.keys():` loop of
`hist_output_specific` (lines 357-360), whose body is identical: a
non-None search result is observed by the histogram. -/
def histOutputLoop (fuel : Nat) (resp_json : Value) :
    List String → List (String × List ℚ) → Except PyErr (List (String × List ℚ))
  | [], st => Except.ok st
  | key :: rest, st =>
    match search_json fuel (Value.str key) resp_json with
    | Value.none => histOutputLoop fuel resp_json rest st
    | v =>
      match obsKey st key v with
      | Except.error e => Except.error e
      | Except.ok st1 => histOutputLoop fuel resp_json rest st1

/-- The `hist_output` wrapper (lines 327-338). -/
def hist_output_wrapper (value_keys : List String) (fuel : Nat)
    (tr_resp : Value → Except PyErr Value) (resp_obj : Value)
    (hists : List (String × List ℚ)) : Except PyErr (Value × List (String × List ℚ)) :=
  withResult resp_obj (do
    let resp_json ← tr_resp resp_obj
    histOutputLoop fuel resp_json value_keys hists)

/-- The `hist_output_specific` wrapper (lines 352-362): identical to
`hist_output`'s except that the iterated keys are `buckets.keys()`;
buckets only configure metric creation, not the per-call policy. -/
def hist_output_specific_wrapper (bucket_keys : List String) (fuel : Nat)
    (tr_resp : Value → Except PyErr Value) (resp_obj : Value)
    (hists : List (String × List ℚ)) : Except PyErr (Value × List (String × List ℚ)) :=
  withResult resp_obj (do
    let resp_json ← tr_resp resp_obj
    histOutputLoop fuel resp_json bucket_keys hists)

/-
Helper lemmas.
-/

/-- A wrapper whose steps succeed returns the captured handler result as
the first component. -/
theorem withResult_ok {σ : Type} (resp_obj : Value) (steps : Except PyErr σ)
    (r : Value) (st : σ) (h : withResult resp_obj steps = Except.ok (r, st)) :
    r = resp_obj := by
  cases steps with
  | ok st0 =>
    simp only [withResult, Except.map] at h
    cases h
    rfl
  | error e => simp [withResult, Except.map] at h

/-- A `vbeq` hit against a string pins down the other value. -/
theorem vbeq_str_iff (x : Value) (s : String) :
    vbeq x (Value.str s) = true ↔ x = Value.str s := by
  cases x <;> simp [vbeq]

/-- Claim C3, counterexample: in the mapping with entries
a ↦ (a nested mapping holding k ↦ 1) and k ↦ 2, the searched key "k" is
present as a top-level key bound to 2, yet `search_json` returns 1 — the
occurrence found while recursing into the earlier-enumerated child "a".
The top-level binding is not returned immediately and is shadowed by a
deeper occurrence. -/
theorem search_json_nested_shadows_toplevel :
    search_json 10 (Value.str "k")
      (Value.dict [(Value.str "a", Value.dict [(Value.str "k", Value.num 1)]),
        (Value.str "k", Value.num 2)]) = Value.num 1
    ∧ dictFind [(Value.str "a", Value.dict [(Value.str "k", Value.num 1)]),
        (Value.str "k", Value.num 2)] (Value.str "k") = some (Value.num 2) :=
  ⟨rfl, rfl⟩

/-- Claim C3, amended: the enumeration interleaves the top-level key test
with recursion into each child, so a top-level binding wins only against
children enumerated at or after its own position.  In particular, when
the searched key is the first enumerated top-level key, its value is
returned immediately, before any recursion into nested children. -/
theorem search_json_first_key_immediate (fuel : Nat) (k v : Value)
    (rest : List (Value × Value)) :
    search_json (fuel + 1) k (Value.dict ((k, v) :: rest)) = v := by
  simp [search_json, searchExc, iter, searchLoop, getItem, value_beq_def, vbeq_refl,
    List.find?]

/-- Claim C4: for every key, container and recursion budget, the result
of `search_json` is the try-block's value when the traversal succeeds and
the absent marker None otherwise: any exception arising inside the
traversal — non-iterable containers, bad subscripts, exhausted recursion
budget — is caught and converted to None, never propagated. -/
theorem search_json_catches_all_errors (fuel : Nat) (key obj : Value) :
    (searchExc fuel key obj = Except.ok (search_json fuel key obj)
      ∨ search_json fuel key obj = Value.none)
    ∧ (∀ e, searchExc fuel key obj = Except.error e →
        search_json fuel key obj = Value.none) := by
  constructor
  · cases h : searchExc fuel key obj with
    | ok res => exact Or.inl (by simp [search_json, h])
    | error e => exact Or.inr (by simp [search_json, h])
  · intro e he
    simp [search_json, he]

/-- Witness for C4: a number is not iterable, so the try-block raises
TypeError and `search_json` returns None. -/
theorem search_json_catches_all_errors_witness :
    searchExc 1 (Value.str "k") (Value.num 3) = Except.error PyErr.typeError
    ∧ search_json 1 (Value.str "k") (Value.num 3) = Value.none :=
  ⟨rfl, (search_json_catches_all_errors 1 (Value.str "k") (Value.num 3)).2
    PyErr.typeError rfl⟩

/-- Claim C10: recursion subscripts the container with each enumerated
child, so for a list the enumerated "keys" are the element values; a list
whose first element is a dict always raises TypeError when the dict is
used as a list index (or as the subscript for the returned hit), which
the except-clause turns into None — a key present only inside a dict
element of a list is never found.  In particular
search of "k" in the list holding the single dict k ↦ 1 returns None. -/
theorem search_json_list_of_dicts_never_found :
    (∀ (fuel : Nat) (key : Value) (kvs : List (Value × Value)) (rest : List Value),
      search_json fuel key (Value.list (Value.dict kvs :: rest)) = Value.none)
    ∧ search_json 10 (Value.str "k")
        (Value.list [Value.dict [(Value.str "k", Value.num 1)]]) = Value.none := by
  constructor
  · intro fuel key kvs rest
    cases fuel with
    | zero => rfl
    | succ n =>
      cases key with
      | dict kvs2 =>
        simp only [search_json, searchExc, iter, searchLoop, value_beq_def]
        by_cases h : vbeq (Value.dict kvs) (Value.dict kvs2) = true
        · simp [h, getItem]
        · simp [h, getItem]
      | none => simp [search_json, searchExc, iter, searchLoop, value_beq_def, vbeq, getItem]
      | num q => simp [search_json, searchExc, iter, searchLoop, value_beq_def, vbeq, getItem]
      | str s => simp [search_json, searchExc, iter, searchLoop, value_beq_def, vbeq, getItem]
      | list xs => simp [search_json, searchExc, iter, searchLoop, value_beq_def, vbeq, getItem]
      | obj attrs => simp [search_json, searchExc, iter, searchLoop, value_beq_def, vbeq, getItem]
  · rfl

/-- Claim C6: for the output-binary decorator with result key "score" and
the default 0.5 threshold, a response view holding score 0.7 increments
exactly the positive-class counter, one holding score 0.3 increments
exactly the negative-class counter, and an empty view leaves both
counters unchanged — from any starting counts. -/
theorem count_binary_threshold_examples (pos neg : Nat) :
    count_binary_wrapper (Value.str "score") Value.none 10
      transform_response_to_json_fastapi
      (Value.dict [(Value.str "score", Value.num (mkRat 7 10))]) pos neg
      = Except.ok (Value.dict [(Value.str "score", Value.num (mkRat 7 10))], pos + 1, neg)
    ∧ count_binary_wrapper (Value.str "score") Value.none 10
      transform_response_to_json_fastapi
      (Value.dict [(Value.str "score", Value.num (mkRat 3 10))]) pos neg
      = Except.ok (Value.dict [(Value.str "score", Value.num (mkRat 3 10))], pos, neg + 1)
    ∧ count_binary_wrapper (Value.str "score") Value.none 10
      transform_response_to_json_fastapi (Value.dict []) pos neg
      = Except.ok (Value.dict [], pos, neg) :=
  ⟨rfl, rfl, rfl⟩

/-- The `count_feature` loop stops at the first enumerated value equal to
the view's feature field: values before the hit are skipped, values after
it are never examined. -/
theorem featureLoop_first_match (request_json : Value) (feature : String)
    (fv val : Value) (vals1 vals2 : List Value) (st st1 : List (String × Nat))
    (hget : getItem request_json (Value.str feature) = Except.ok fv)
    (hmiss : ∀ v ∈ vals1, vbeq fv v = false)
    (hhit : vbeq fv val = true)
    (hinc : incKey st (feature ++ "_" ++ pyStr val) = Except.ok st1) :
    featureLoop request_json feature (vals1 ++ val :: vals2) st = Except.ok st1 := by
  induction vals1 with
  | nil => simp [featureLoop, hget, value_beq_def, hhit, hinc]
  | cons v vs ih =>
    have hv : vbeq fv v = false := hmiss v (by simp)
    simp only [List.cons_append, featureLoop, hget, value_beq_def, hv, Bool.false_eq_true,
      if_false]
    exact ih (fun w hw => hmiss w (by simp [hw]))

/-- Claim C7: a `count_feature` call increments exactly the counter of
the first enumerated value equal to the request-view feature field and
stops checking further values: whenever the field equals `val` and none
of the values enumerated before `val`, the final counter state is the
increment of `val`'s counter, whatever values follow. -/
theorem count_feature_first_match (feature : String) (vals1 : List Value) (val : Value)
    (vals2 : List Value) (tr_req : FlaskRequest → List (String × Value) → Value)
    (freq : FlaskRequest) (kwargs : List (String × Value)) (resp_obj fv : Value)
    (counters counters1 : List (String × Nat))
    (hget : getItem (tr_req freq kwargs) (Value.str feature) = Except.ok fv)
    (hmiss : ∀ v ∈ vals1, vbeq fv v = false)
    (hhit : vbeq fv val = true)
    (hinc : incKey counters (feature ++ "_" ++ pyStr val) = Except.ok counters1) :
    count_feature_wrapper feature (vals1 ++ val :: vals2) tr_req freq kwargs resp_obj counters
      = Except.ok (resp_obj, counters1) := by
  simp [count_feature_wrapper, withResult,
    featureLoop_first_match _ _ _ _ _ _ _ _ hget hmiss hhit hinc, Except.map]

/-- Witness for C7: values 1, 2, 3 with feature field 2 in the request
view — only the counter for value 2 increments. -/
theorem count_feature_first_match_witness :
    count_feature_wrapper "f" [Value.num 1, Value.num 2, Value.num 3]
      transform_request_to_json_fastapi ⟨"GET", [], []⟩ [("f", Value.num 2)]
      (Value.dict []) [("f_1", 0), ("f_2", 0), ("f_3", 0)]
      = Except.ok (Value.dict [], [("f_1", 0), ("f_2", 1), ("f_3", 0)]) :=
  count_feature_first_match "f" [Value.num 1] (Value.num 2) [Value.num 3]
    transform_request_to_json_fastapi ⟨"GET", [], []⟩ [("f", Value.num 2)]
    (Value.dict []) (Value.num 2) [("f_1", 0), ("f_2", 0), ("f_3", 0)]
    [("f_1", 0), ("f_2", 1), ("f_3", 0)] rfl
    (by intro v hv; rw [List.mem_singleton] at hv; subst hv; rfl) rfl rfl

/-- Claim C9: the three feature-side wrappers read the feature field by
direct top-level subscription of the request view, never by recursive
search: when that subscription raises KeyError — the feature key is
absent from the top level, wherever else it may occur nested — each
wrapper raises KeyError to its caller. -/
theorem feature_wrappers_index_toplevel_only
    (feature : String) (val : Value) (vals : List Value) (fs : List String)
    (tr_req : FlaskRequest → List (String × Value) → Value) (freq : FlaskRequest)
    (kwargs : List (String × Value)) (resp_obj : Value)
    (cst : List (String × Nat)) (gst : List (String × Option ℚ))
    (hst : List (String × List ℚ))
    (hmiss : getItem (tr_req freq kwargs) (Value.str feature)
      = Except.error PyErr.keyError) :
    count_feature_wrapper feature (val :: vals) tr_req freq kwargs resp_obj cst
        = Except.error PyErr.keyError
    ∧ gauge_feature_wrapper (feature :: fs) tr_req freq kwargs resp_obj gst
        = Except.error PyErr.keyError
    ∧ hist_feature_wrapper (feature :: fs) tr_req freq kwargs resp_obj hst
        = Except.error PyErr.keyError := by
  refine ⟨?_, ?_, ?_⟩ <;>
    simp [count_feature_wrapper, gauge_feature_wrapper, hist_feature_wrapper, withResult,
      featureLoop, gaugeFeatureLoop, histFeatureLoop, hmiss, Except.map]

/-- Witness for C9: the feature "f" occurs only nested inside the view
value at key "outer"; recursive search would find it, but all three
feature wrappers raise KeyError. -/
theorem feature_wrappers_index_toplevel_only_witness :
    search_json 10 (Value.str "f")
      (transform_request_to_json_fastapi ⟨"GET", [], []⟩
        [("outer", Value.dict [(Value.str "f", Value.num 2)])]) = Value.num 2
    ∧ count_feature_wrapper "f" [Value.num 1] transform_request_to_json_fastapi
        ⟨"GET", [], []⟩ [("outer", Value.dict [(Value.str "f", Value.num 2)])]
        (Value.dict []) [("f_1", 0)] = Except.error PyErr.keyError
    ∧ gauge_feature_wrapper ["f"] transform_request_to_json_fastapi ⟨"GET", [], []⟩
        [("outer", Value.dict [(Value.str "f", Value.num 2)])] (Value.dict [])
        [("f", Option.none)] = Except.error PyErr.keyError
    ∧ hist_feature_wrapper ["f"] transform_request_to_json_fastapi ⟨"GET", [], []⟩
        [("outer", Value.dict [(Value.str "f", Value.num 2)])] (Value.dict [])
        [("f", [])] = Except.error PyErr.keyError := by
  have h := feature_wrappers_index_toplevel_only "f" (Value.num 1) [] []
    transform_request_to_json_fastapi ⟨"GET", [], []⟩
    [("outer", Value.dict [(Value.str "f", Value.num 2)])] (Value.dict [])
    [("f_1", 0)] [("f", Option.none)] [("f", [])] rfl
  exact ⟨rfl, h.1, h.2.1, h.2.2⟩

/-- Claim C8: when the factory received a (truthy) threshold key that is
absent from the response view, the resolved threshold is None — not the
0.5 default — and a call whose result value is present and numeric raises
TypeError (number compared with None) out of the wrapper instead of
skipping or recording.  Both `count_binary` and `count_classes` behave
this way. -/
theorem missing_threshold_key_raises_typeerror :
    (∀ (result_key threshold_key : Value) (fuel : Nat)
      (tr_resp : Value → Except PyErr Value) (resp_obj view : Value) (pos neg : Nat)
      (q : ℚ),
      tr_resp resp_obj = Except.ok view →
      pyTruthy threshold_key = true →
      search_json fuel threshold_key view = Value.none →
      search_json fuel result_key view = Value.num q →
      count_binary_wrapper result_key threshold_key fuel tr_resp resp_obj pos neg
        = Except.error PyErr.typeError)
    ∧ (∀ (threshold_key : Value) (cls : String) (rest : List String) (fuel : Nat)
      (tr_resp : Value → Except PyErr Value) (resp_obj view : Value)
      (counters : List (String × Nat)) (q : ℚ),
      tr_resp resp_obj = Except.ok view →
      pyTruthy threshold_key = true →
      search_json fuel threshold_key view = Value.none →
      search_json fuel (Value.str cls) view = Value.num q →
      count_classes_wrapper threshold_key (cls :: rest) fuel tr_resp resp_obj counters
        = Except.error PyErr.typeError) := by
  constructor
  · intro rk tk fuel trr resp view pos neg q h1 h2 h3 h4
    simp [count_binary_wrapper, withResult, count_binary_steps, h1, h2, h3, h4, pyGT,
      Except.map, Except.bind, bind, pure, Except.pure]
  · intro tk cls rest fuel trr resp view counters q h1 h2 h3 h4
    simp [count_classes_wrapper, withResult, count_classes_steps, classLoop, h1, h2, h3,
      h4, pyGT, Except.map, Except.bind, bind, pure, Except.pure]

/-- Witness for C8: response view score ↦ 0.7 with threshold key "t"
absent — both wrappers raise TypeError. -/
theorem missing_threshold_key_raises_typeerror_witness :
    count_binary_wrapper (Value.str "score") (Value.str "t") 10
      transform_response_to_json_fastapi
      (Value.dict [(Value.str "score", Value.num (mkRat 7 10))]) 0 0
      = Except.error PyErr.typeError
    ∧ count_classes_wrapper (Value.str "t") ["score"] 10
      transform_response_to_json_fastapi
      (Value.dict [(Value.str "score", Value.num (mkRat 7 10))]) [("score", 0)]
      = Except.error PyErr.typeError := by
  constructor
  · exact (missing_threshold_key_raises_typeerror).1 (Value.str "score") (Value.str "t")
      10 transform_response_to_json_fastapi
      (Value.dict [(Value.str "score", Value.num (mkRat 7 10))])
      (Value.dict [(Value.str "score", Value.num (mkRat 7 10))]) 0 0 (mkRat 7 10)
      rfl rfl rfl rfl
  · exact (missing_threshold_key_raises_typeerror).2 (Value.str "t") "score" [] 10
      transform_response_to_json_fastapi
      (Value.dict [(Value.str "score", Value.num (mkRat 7 10))])
      (Value.dict [(Value.str "score", Value.num (mkRat 7 10))]) [("score", 0)]
      (mkRat 7 10) rfl rfl rfl rfl

/-- Claim C2, counterexample: the claim includes the feedback-binary and
feature policies, but an absent looked-up field does not skip silently
there: with an empty request view, the feature-count wrapper raises
KeyError (direct subscription of the view) and the feedback-binary
wrapper raises AttributeError (attribute access on the absent marker
None returned by the feedback search). -/
theorem feature_policy_raises_on_absent_view_key :
    count_feature_wrapper "f" [Value.num 1] transform_request_to_json_fastapi
      ⟨"GET", [], []⟩ [] (Value.dict []) [("f_1", 0)] = Except.error PyErr.keyError
    ∧ count_false_binary_feedback_wrapper (Value.str "fb") Value.none 10
      transform_request_to_json_fastapi ⟨"GET", [], []⟩ [] (Value.dict []) 0 0
      = Except.error PyErr.attributeError :=
  ⟨rfl, rfl⟩

/-- `count_classes` loop: when every class search misses, the counters
are untouched. -/
theorem classLoop_skip (fuel : Nat) (resp_json threshold : Value)
    (classes : List String) (st : List (String × Nat))
    (h : ∀ c ∈ classes, search_json fuel (Value.str c) resp_json = Value.none) :
    classLoop fuel resp_json threshold classes st = Except.ok st := by
  induction classes with
  | nil => rfl
  | cons c cs ih =>
    have hc := h c (by simp)
    simp only [classLoop, hc]
    exact ih (fun d hd => h d (by simp [hd]))

/-- `gauge_output` loop: when every key search misses, the gauges are
untouched. -/
theorem gaugeOutputLoop_skip (fuel : Nat) (resp_json : Value)
    (keys : List String) (st : List (String × Option ℚ))
    (h : ∀ k ∈ keys, search_json fuel (Value.str k) resp_json = Value.none) :
    gaugeOutputLoop fuel resp_json keys st = Except.ok st := by
  induction keys with
  | nil => rfl
  | cons k ks ih =>
    have hk := h k (by simp)
    simp only [gaugeOutputLoop, hk]
    exact ih (fun d hd => h d (by simp [hd]))

/-- `hist_output` loop: when every key search misses, the histograms are
untouched. -/
theorem histOutputLoop_skip (fuel : Nat) (resp_json : Value)
    (keys : List String) (st : List (String × List ℚ))
    (h : ∀ k ∈ keys, search_json fuel (Value.str k) resp_json = Value.none) :
    histOutputLoop fuel resp_json keys st = Except.ok st := by
  induction keys with
  | nil => rfl
  | cons k ks ih =>
    have hk := h k (by simp)
    simp only [histOutputLoop, hk]
    exact ih (fun d hd => h d (by simp [hd]))

/-- Claim C2, amended: only the output policies treat an absent
looked-up field as a silent skip.  For output-binary, output-multiclass,
output-gauge and both output-histogram variants, a call whose searches
all return the absent marker updates no metric, raises nothing, and
returns the handler's result unchanged.  (The feedback-binary policy
raises AttributeError and the feature policies raise KeyError instead,
per the counterexample.) -/
theorem output_policies_skip_absent_silently :
    (∀ (result_key threshold_key : Value) (fuel : Nat)
      (tr_resp : Value → Except PyErr Value) (resp_obj view : Value) (pos neg : Nat),
      tr_resp resp_obj = Except.ok view →
      search_json fuel result_key view = Value.none →
      count_binary_wrapper result_key threshold_key fuel tr_resp resp_obj pos neg
        = Except.ok (resp_obj, pos, neg))
    ∧ (∀ (threshold_key : Value) (classes : List String) (fuel : Nat)
      (tr_resp : Value → Except PyErr Value) (resp_obj view : Value)
      (counters : List (String × Nat)),
      tr_resp resp_obj = Except.ok view →
      (∀ c ∈ classes, search_json fuel (Value.str c) view = Value.none) →
      count_classes_wrapper threshold_key classes fuel tr_resp resp_obj counters
        = Except.ok (resp_obj, counters))
    ∧ (∀ (value_keys : List String) (fuel : Nat)
      (tr_resp : Value → Except PyErr Value) (resp_obj view : Value)
      (gauges : List (String × Option ℚ)),
      tr_resp resp_obj = Except.ok view →
      (∀ k ∈ value_keys, search_json fuel (Value.str k) view = Value.none) →
      gauge_output_wrapper value_keys fuel tr_resp resp_obj gauges
        = Except.ok (resp_obj, gauges))
    ∧ (∀ (value_keys : List String) (fuel : Nat)
      (tr_resp : Value → Except PyErr Value) (resp_obj view : Value)
      (hists : List (String × List ℚ)),
      tr_resp resp_obj = Except.ok view →
      (∀ k ∈ value_keys, search_json fuel (Value.str k) view = Value.none) →
      hist_output_wrapper value_keys fuel tr_resp resp_obj hists
        = Except.ok (resp_obj, hists))
    ∧ (∀ (bucket_keys : List String) (fuel : Nat)
      (tr_resp : Value → Except PyErr Value) (resp_obj view : Value)
      (hists : List (String × List ℚ)),
      tr_resp resp_obj = Except.ok view →
      (∀ k ∈ bucket_keys, search_json fuel (Value.str k) view = Value.none) →
      hist_output_specific_wrapper bucket_keys fuel tr_resp resp_obj hists
        = Except.ok (resp_obj, hists)) := by
  refine ⟨?_, ?_, ?_, ?_, ?_⟩
  · intro rk tk fuel trr resp view pos neg h1 h2
    simp [count_binary_wrapper, withResult, count_binary_steps, h1, h2, Except.map,
      Except.bind, bind, pure, Except.pure]
  · intro tk classes fuel trr resp view counters h1 h2
    simp [count_classes_wrapper, withResult, count_classes_steps, h1,
      classLoop_skip _ _ _ _ _ h2, Except.map, Except.bind, bind, pure, Except.pure]
  · intro keys fuel trr resp view gauges h1 h2
    simp [gauge_output_wrapper, withResult, h1, gaugeOutputLoop_skip _ _ _ _ h2,
      Except.map, Except.bind, bind, pure, Except.pure]
  · intro keys fuel trr resp view hists h1 h2
    simp [hist_output_wrapper, withResult, h1, histOutputLoop_skip _ _ _ _ h2,
      Except.map, Except.bind, bind, pure, Except.pure]
  · intro keys fuel trr resp view hists h1 h2
    simp [hist_output_specific_wrapper, withResult, h1, histOutputLoop_skip _ _ _ _ h2,
      Except.map, Except.bind, bind, pure, Except.pure]

/-- Witness for the amended C2: an empty response view misses every key;
all five output wrappers return the handler's dict unchanged with
untouched metric state. -/
theorem output_policies_skip_absent_silently_witness :
    count_binary_wrapper (Value.str "score") Value.none 10
      transform_response_to_json_fastapi (Value.dict []) 0 0
      = Except.ok (Value.dict [], 0, 0)
    ∧ count_classes_wrapper Value.none ["cat"] 10 transform_response_to_json_fastapi
      (Value.dict []) [("cat", 0)] = Except.ok (Value.dict [], [("cat", 0)])
    ∧ gauge_output_wrapper ["g"] 10 transform_response_to_json_fastapi
      (Value.dict []) [("g", Option.none)] = Except.ok (Value.dict [], [("g", Option.none)])
    ∧ hist_output_wrapper ["h"] 10 transform_response_to_json_fastapi
      (Value.dict []) [("h", [])] = Except.ok (Value.dict [], [("h", [])])
    ∧ hist_output_specific_wrapper ["s"] 10 transform_response_to_json_fastapi
      (Value.dict []) [("s", [])] = Except.ok (Value.dict [], [("s", [])]) := by
  refine ⟨?_, ?_, ?_, ?_, ?_⟩
  · exact (output_policies_skip_absent_silently).1 (Value.str "score") Value.none 10
      transform_response_to_json_fastapi (Value.dict []) (Value.dict []) 0 0 rfl rfl
  · exact (output_policies_skip_absent_silently).2.1 Value.none ["cat"] 10
      transform_response_to_json_fastapi (Value.dict []) (Value.dict []) [("cat", 0)] rfl
      (by intro c hc; rw [List.mem_singleton] at hc; subst hc; rfl)
  · exact (output_policies_skip_absent_silently).2.2.1 ["g"] 10
      transform_response_to_json_fastapi (Value.dict []) (Value.dict [])
      [("g", Option.none)] rfl
      (by intro c hc; rw [List.mem_singleton] at hc; subst hc; rfl)
  · exact (output_policies_skip_absent_silently).2.2.2.1 ["h"] 10
      transform_response_to_json_fastapi (Value.dict []) (Value.dict []) [("h", [])] rfl
      (by intro c hc; rw [List.mem_singleton] at hc; subst hc; rfl)
  · exact (output_policies_skip_absent_silently).2.2.2.2 ["s"] 10
      transform_response_to_json_fastapi (Value.dict []) (Value.dict []) [("s", [])] rfl
      (by intro c hc; rw [List.mem_singleton] at hc; subst hc; rfl)

/-- Claim C1, counterexample: the handler returned normally (a dict with
score 0.6), the factory got threshold key "t" which is absent from the
response view, and the wrapper raises TypeError to the caller instead of
returning the handler's result — a failure inside metric recording does
reach the caller. -/
theorem metric_failure_escapes_wrapper :
    count_binary_wrapper (Value.str "score") (Value.str "t") 10
      transform_response_to_json_fastapi
      (Value.dict [(Value.str "score", Value.num (mkRat 3 5))]) 0 0
      = Except.error PyErr.typeError :=
  rfl

/-- Claim C1, amended: whenever view derivation and metric recording
themselves complete without raising, every one of the nine produced
wrappers returns the handler's original result unchanged, whether or not
the lookups found data; but an exception raised inside those steps
propagates to the caller in place of the result (counterexample above)
— there is no try/except in any wrapper. -/
theorem wrapper_ok_returns_original_result :
    (∀ (fk tk : Value) (fuel : Nat) (tr_req : FlaskRequest → List (String × Value) → Value)
      (freq : FlaskRequest) (kwargs : List (String × Value)) (resp_obj : Value)
      (fp fneg : Nat) (r : Value) (st : Nat × Nat),
      count_false_binary_feedback_wrapper fk tk fuel tr_req freq kwargs resp_obj fp fneg
        = Except.ok (r, st) → r = resp_obj)
    ∧ (∀ (feature : String) (values : List Value)
      (tr_req : FlaskRequest → List (String × Value) → Value) (freq : FlaskRequest)
      (kwargs : List (String × Value)) (resp_obj : Value)
      (counters : List (String × Nat)) (r : Value) (st : List (String × Nat)),
      count_feature_wrapper feature values tr_req freq kwargs resp_obj counters
        = Except.ok (r, st) → r = resp_obj)
    ∧ (∀ (feature_keys : List String)
      (tr_req : FlaskRequest → List (String × Value) → Value) (freq : FlaskRequest)
      (kwargs : List (String × Value)) (resp_obj : Value)
      (gauges : List (String × Option ℚ)) (r : Value) (st : List (String × Option ℚ)),
      gauge_feature_wrapper feature_keys tr_req freq kwargs resp_obj gauges
        = Except.ok (r, st) → r = resp_obj)
    ∧ (∀ (feature_keys : List String)
      (tr_req : FlaskRequest → List (String × Value) → Value) (freq : FlaskRequest)
      (kwargs : List (String × Value)) (resp_obj : Value)
      (hists : List (String × List ℚ)) (r : Value) (st : List (String × List ℚ)),
      hist_feature_wrapper feature_keys tr_req freq kwargs resp_obj hists
        = Except.ok (r, st) → r = resp_obj)
    ∧ (∀ (rk tk : Value) (fuel : Nat) (tr_resp : Value → Except PyErr Value)
      (resp_obj : Value) (pos neg : Nat) (r : Value) (st : Nat × Nat),
      count_binary_wrapper rk tk fuel tr_resp resp_obj pos neg
        = Except.ok (r, st) → r = resp_obj)
    ∧ (∀ (tk : Value) (classes : List String) (fuel : Nat)
      (tr_resp : Value → Except PyErr Value) (resp_obj : Value)
      (counters : List (String × Nat)) (r : Value) (st : List (String × Nat)),
      count_classes_wrapper tk classes fuel tr_resp resp_obj counters
        = Except.ok (r, st) → r = resp_obj)
    ∧ (∀ (value_keys : List String) (fuel : Nat) (tr_resp : Value → Except PyErr Value)
      (resp_obj : Value) (gauges : List (String × Option ℚ)) (r : Value)
      (st : List (String × Option ℚ)),
      gauge_output_wrapper value_keys fuel tr_resp resp_obj gauges
        = Except.ok (r, st) → r = resp_obj)
    ∧ (∀ (value_keys : List String) (fuel : Nat) (tr_resp : Value → Except PyErr Value)
      (resp_obj : Value) (hists : List (String × List ℚ)) (r : Value)
      (st : List (String × List ℚ)),
      hist_output_wrapper value_keys fuel tr_resp resp_obj hists
        = Except.ok (r, st) → r = resp_obj)
    ∧ (∀ (bucket_keys : List String) (fuel : Nat) (tr_resp : Value → Except PyErr Value)
      (resp_obj : Value) (hists : List (String × List ℚ)) (r : Value)
      (st : List (String × List ℚ)),
      hist_output_specific_wrapper bucket_keys fuel tr_resp resp_obj hists
        = Except.ok (r, st) → r = resp_obj) := by
  refine ⟨?_, ?_, ?_, ?_, ?_, ?_, ?_, ?_, ?_⟩
  · intro fk tk fuel trq freq kwargs resp_obj fp fneg r st h
    exact withResult_ok resp_obj _ r st h
  · intro feature values trq freq kwargs resp_obj counters r st h
    exact withResult_ok resp_obj _ r st h
  · intro fks trq freq kwargs resp_obj gauges r st h
    exact withResult_ok resp_obj _ r st h
  · intro fks trq freq kwargs resp_obj hists r st h
    exact withResult_ok resp_obj _ r st h
  · intro rk tk fuel trr resp_obj pos neg r st h
    exact withResult_ok resp_obj _ r st h
  · intro tk classes fuel trr resp_obj counters r st h
    exact withResult_ok resp_obj _ r st h
  · intro vks fuel trr resp_obj gauges r st h
    exact withResult_ok resp_obj _ r st h
  · intro vks fuel trr resp_obj hists r st h
    exact withResult_ok resp_obj _ r st h
  · intro bks fuel trr resp_obj hists r st h
    exact withResult_ok resp_obj _ r st h

/-- Witness for the amended C1: a concrete `count_binary` call whose
steps succeed; the returned value is the handler's dict. -/
theorem wrapper_ok_returns_original_result_witness :
    count_binary_wrapper (Value.str "score") Value.none 10
      transform_response_to_json_fastapi (Value.dict []) 0 0
      = Except.ok (Value.dict [], 0, 0)
    ∧ (Value.dict [] : Value) = Value.dict [] := by
  have h : count_binary_wrapper (Value.str "score") Value.none 10
      transform_response_to_json_fastapi (Value.dict []) 0 0
      = Except.ok (Value.dict [], 0, 0) := rfl
  exact ⟨h, (wrapper_ok_returns_original_result).2.2.2.2.1 (Value.str "score") Value.none
    10 transform_response_to_json_fastapi (Value.dict []) 0 0 (Value.dict []) (0, 0) h⟩

/-- Lookup in the view a single dict assignment built: the assigned key
maps to the assigned value, every other key is unaffected. -/
theorem dictAssign_find_str (d : List (Value × Value)) (k q : String) (v : Value) :
    dictFind (dictAssign d (Value.str k) v) (Value.str q)
      = if q = k then some v else dictFind d (Value.str q) := by
  unfold dictAssign
  by_cases hpres : (d.find? (fun p => p.1 == Value.str k)).isSome
  · rw [if_pos hpres]
    unfold dictFind
    rw [List.find?_map]
    have hpred : ((fun p : Value × Value => p.1 == Value.str q) ∘
        (fun p : Value × Value => if p.1 == Value.str k then (p.1, v) else p))
        = (fun p : Value × Value => p.1 == Value.str q) := by
      funext p
      by_cases h : (p.1 == Value.str k) = true <;> simp [Function.comp, h]
    rw [hpred]
    by_cases hq : q = k
    · subst hq
      obtain ⟨p, hp⟩ := Option.isSome_iff_exists.mp hpres
      rw [hp]
      have hpk := List.find?_some hp
      simp [hpk]
    · cases hfq : d.find? (fun p => p.1 == Value.str q) with
      | none => simp [hq]
      | some p =>
        have hpq := List.find?_some hfq
        have hp1 : p.1 = Value.str q := (vbeq_str_iff p.1 q).mp hpq
        have hne : (p.1 == Value.str k) = false := by
          rw [hp1, value_beq_def]
          simp [vbeq]
          exact fun h => hq h
        simp [hne, hq]
  · rw [if_neg hpres]
    unfold dictFind
    rw [List.find?_append]
    have hnone : d.find? (fun p => p.1 == Value.str k) = Option.none := by
      rw [← Option.not_isSome_iff_eq_none]
      exact hpres
    by_cases hq : q = k
    · subst hq
      have hhit : ((Value.str q, v).1 == Value.str q) = true := by
        rw [value_beq_def]
        exact vbeq_refl (Value.str q)
      simp [hnone, List.find?, hhit]
    · have hmiss : ((Value.str k, v).1 == Value.str q) = false := by
        rw [value_beq_def]
        simp [vbeq]
        exact fun h => hq h.symm
      cases hfq : d.find? (fun p => p.1 == Value.str q) with
      | none => simp [List.find?, hmiss, hq]
      | some p => simp [List.find?, hmiss, hq]

/-- Lookup in the dict the adapter's assignment loop builds: a key in
the parameter list maps to its `get` value, any other key falls back to
the initial dict. -/
theorem buildRes_find (get : String → Value) (keys : List String) :
    ∀ (d : List (Value × Value)) (q : String),
      dictFind (keys.foldl (fun d k => dictAssign d (Value.str k) (get k)) d)
          (Value.str q)
        = if q ∈ keys then some (get q) else dictFind d (Value.str q) := by
  induction keys with
  | nil => intro d q; simp
  | cons k ks ih =>
    intro d q
    simp only [List.foldl_cons]
    rw [ih]
    by_cases hq : q ∈ ks
    · simp [hq]
    · rw [dictAssign_find_str]
      by_cases hqk : q = k
      · simp [hqk]
      · simp [hq, hqk]

/-- Top-level lookup in a view value (a dict), for stating what the
adapters build. -/
def viewFind (view : Value) (q : String) : Option Value :=
  match view with
  | Value.dict kvs => dictFind kvs (Value.str q)
  | _ => Option.none

/-- Claim C5, counterexample: a PUT request carrying the body parameter
x ↦ 1 and no query parameters, invoked with no keyword arguments.  PUT
is a write verb, so the claim requires the view to be built from the
combined query+body set and to contain x; the code tests only POST and
builds the view from the query parameters alone, producing the empty
view — while the combined set does hold x ↦ 1. -/
theorem transform_request_flask_put_ignores_form :
    transform_request_to_json_flask ⟨"PUT", [], [("x", [Value.num 1])]⟩ []
      = Value.dict []
    ∧ combined_get [] [("x", [Value.num 1])] "x" = Value.num 1 :=
  ⟨rfl, rfl⟩

/-- Claim C5, amended: non-empty kwargs are the view verbatim, with no
merge of query/form parameters.  Otherwise the view is one flat mapping
of each parameter name to its first value, built from the combined
query+body parameter set exactly when the method is POST — not for every
write verb — and from the query parameter set for every other method. -/
theorem transform_request_flask_spec :
    (∀ (freq : FlaskRequest) (kwargs : List (String × Value)),
      kwargs ≠ [] →
      transform_request_to_json_flask freq kwargs = kwargsDict kwargs)
    ∧ (∀ (freq : FlaskRequest) (q : String),
      freq.method = "POST" →
      viewFind (transform_request_to_json_flask freq []) q
        = if q ∈ multi_keys freq.args ++ multi_keys freq.form
          then some (combined_get freq.args freq.form q) else Option.none)
    ∧ (∀ (freq : FlaskRequest) (q : String),
      freq.method ≠ "POST" →
      viewFind (transform_request_to_json_flask freq []) q
        = if q ∈ multi_keys freq.args then some (multi_get freq.args q)
          else Option.none) := by
  refine ⟨?_, ?_, ?_⟩
  · intro freq kwargs hk
    have hlen : kwargs.length ≠ 0 := by
      intro h
      exact hk (List.eq_nil_of_length_eq_zero h)
    simp [transform_request_to_json_flask, hlen]
  · intro freq q hm
    have hm2 : (freq.method == "POST") = true := by
      rw [hm]; rfl
    simp only [transform_request_to_json_flask, List.length_nil, ne_eq, not_true_eq_false,
      if_false, hm2, if_true, viewFind, buildRes]
    rw [buildRes_find]
    by_cases hq : q ∈ multi_keys freq.args ++ multi_keys freq.form <;> simp [hq, dictFind]
  · intro freq q hm
    have hm2 : (freq.method == "POST") = false := by
      rw [beq_eq_false_iff_ne]
      exact hm
    simp only [transform_request_to_json_flask, List.length_nil, ne_eq, not_true_eq_false,
      if_false, hm2, Bool.false_eq_true, viewFind, buildRes]
    rw [buildRes_find]
    by_cases hq : q ∈ multi_keys freq.args <;> simp [hq, dictFind]

/-- Witness for the amended C5: kwargs a ↦ 1 pass through verbatim; a
POST request reads query before form for a shared name and includes
form-only names; a GET request reads only the query parameters. -/
theorem transform_request_flask_spec_witness :
    transform_request_to_json_flask ⟨"GET", [("z", [Value.num 3])], []⟩
        [("a", Value.num 1)] = kwargsDict [("a", Value.num 1)]
    ∧ viewFind (transform_request_to_json_flask
        ⟨"POST", [("q", [Value.num 1, Value.num 9])], [("q", [Value.num 5]), ("x", [Value.num 2])]⟩ []) "x"
      = some (Value.num 2)
    ∧ viewFind (transform_request_to_json_flask
        ⟨"POST", [("q", [Value.num 1, Value.num 9])], [("q", [Value.num 5]), ("x", [Value.num 2])]⟩ []) "q"
      = some (Value.num 1)
    ∧ viewFind (transform_request_to_json_flask
        ⟨"GET", [("q", [Value.num 1])], [("x", [Value.num 2])]⟩ []) "x" = Option.none := by
  refine ⟨?_, ?_, ?_, ?_⟩
  · exact (transform_request_flask_spec).1 ⟨"GET", [("z", [Value.num 3])], []⟩
      [("a", Value.num 1)] (by simp)
  · have h := (transform_request_flask_spec).2.1
      ⟨"POST", [("q", [Value.num 1, Value.num 9])], [("q", [Value.num 5]), ("x", [Value.num 2])]⟩
      "x" rfl
    rw [h]
    rfl
  · have h := (transform_request_flask_spec).2.1
      ⟨"POST", [("q", [Value.num 1, Value.num 9])], [("q", [Value.num 5]), ("x", [Value.num 2])]⟩
      "q" rfl
    rw [h]
    rfl
  · have h := (transform_request_flask_spec).2.2
      ⟨"GET", [("q", [Value.num 1])], [("x", [Value.num 2])]⟩ "x" (by simp)
    rw [h]
    rfl

end Instrumentator
